import Mathlib

/-!
Shallow embedding of the trellus-node-onfleet request pipeline:
the URL/body resolver and dispatcher of `src/lib/Methods.js`, the
limiter-configuration guard and client constructor of `src/lib/onfleet.js`.

JavaScript values that the resolver inspects are modelled by `JVal`
(strings and flat string-valued objects), JS truthiness by the
`jsTruthy*` helpers, and the mutable local variables `url`, `body`,
`hasBody` of the `Methods` function by the record `ResolveState`
threaded through one function per source block, composed in source
order by `resolve`.
-/

namespace TrellusOnfleet

/-- A flat JS object, as a list of string-valued fields (the shapes the
resolver inspects: query-parameter objects and delivery-manifest objects). -/
structure JObj where
  pairs : List (String × String)
deriving DecidableEq, Repr

/-- A caller-supplied positional argument: a string or a flat object. -/
inductive JVal where
  | str (s : String)
  | obj (o : JObj)
deriving DecidableEq, Repr

/-- JS truthiness of a `JVal`: the empty string is falsy, objects are truthy. -/
def jsTruthyV : JVal → Bool
  | .str s => s ≠ ""
  | .obj _ => true

/-- JS truthiness of a possibly-absent value (`undefined` is falsy). -/
def jsTruthyOptV : Option JVal → Bool
  | some v => jsTruthyV v
  | none => false

/-- JS truthiness of a possibly-absent string. -/
def jsTruthyOptS : Option String → Bool
  | some s => s ≠ ""
  | none => false

/-- JS string coercion of a `JVal` (objects coerce to "[object Object]"). -/
def jvalToString : JVal → String
  | .str s => s
  | .obj _ => "[object Object]"

/-- JS string coercion of a possibly-absent value (`undefined` coerces
to the string "undefined", as in `baseUrl + altPath` with no altPath). -/
def jsCoerceOpt : Option JVal → String
  | some v => jvalToString v
  | none => "undefined"

/-- JS string coercion of a possibly-absent string. -/
def jsStrOpt : Option String → String
  | some s => s
  | none => "undefined"

/-- Field read on a flat object (`item.hubId` and similar). -/
def JObj.field (o : JObj) (k : String) : Option String :=
  (o.pairs.find? (fun p => p.1 = k)).map (fun p => p.2)

/-- Truthiness of a field read: present and non-empty. -/
def JObj.truthyField (o : JObj) (k : String) : Bool :=
  match o.field k with
  | some v => v ≠ ""
  | none => false

/-- Field value used after a truthiness check (defaults never reached). -/
def JObj.fieldD (o : JObj) (k : String) : String :=
  (o.field k).getD "undefined"

/-- Modelled from the spec: `util.js` is not under `src/`.  The spec's
"opaque identifier" is "a caller-supplied string recognized by its
encoding as a direct resource identifier" (base64-like shape); the
remote system's identifiers use an alphabet of alphanumerics plus
`+ / = * ~` (identifiers such as "AqzN6ZAq*qlSDJ0FzmZIMZz~" appear in
the repository's tests). -/
def isBase64EncodedStr (s : String) : Bool :=
  s ≠ "" && s.data.all (fun c =>
    c.isAlphanum || c = '+' || c = '/' || c = '=' || c = '*' || c = '~')

/-- `util.isBase64Encoded` applied to a possibly-absent argument, after
JS string coercion (an object coerces to "[object Object]", which fails
the shape test because of its space and brackets). -/
def isBase64Opt (v : Option JVal) : Bool :=
  isBase64EncodedStr (jsCoerceOpt v)

/-- Modelled from the spec: `util.js` is not under `src/`.  "Substitute
it as a path segment": the identifier becomes a path segment of the url. -/
def replaceWithId (url id : String) : String :=
  url ++ "/" ++ id

/-- Modelled from the spec: `util.js` is not under `src/`.  "Substitute
the first argument into the path using that tag as the parameter name";
the spec's end-to-end example resolves to a url ending in
`.../tasks/shortId/44a56188`. -/
def replaceWithEndpointAndParam (url endpoint param : String) : String :=
  url ++ "/" ++ endpoint ++ "/" ++ param

/-- Modelled from the spec: `util.js` is not under `src/`.  "Append them
to the url": render the flat key/value object as a query string appended
to the url. -/
def appendQueryParameters (url : String) (o : JObj) : String :=
  url ++ "?" ++ String.intercalate "&" (o.pairs.map (fun p => p.1 ++ "=" ++ p.2))

/-- Modelled from the spec: `util.js` is not under `src/`.  A query
parameter argument "looks like a flat key/value query object"; strings
are not query objects. -/
def isQueryParam : JVal → Bool
  | .str _ => false
  | .obj _ => true

/-- Whether `p` is a prefix of `s`, on character lists. -/
def charsPrefix : List Char → List Char → Bool
  | [], _ => true
  | _ :: _, [] => false
  | p :: ps, c :: cs => p == c && charsPrefix ps cs

/-- Whether `s` contains `pat` as a contiguous sublist. -/
def charsContains : List Char → List Char → Bool
  | [], pat => pat.isEmpty
  | c :: rest, pat => charsPrefix pat (c :: rest) || charsContains rest pat

/-- Substring test (`String.prototype.includes`). -/
def strContains (s pat : String) : Bool :=
  charsContains s.data pat.data

/-- The call descriptor destructured at the top of `Methods`
(`src/lib/Methods.js` line 14). -/
structure Descriptor where
  path : String
  altPath : Option String
  method : String
  queryParams : Bool
  deliveryManifestObject : Bool
  timeoutInMilliseconds : Option Nat
deriving DecidableEq, Repr

/-- The client configuration consumed by `Methods` (`api.api`). -/
structure ApiConfig where
  baseUrl : String
deriving DecidableEq, Repr

/-- The request body accumulated by the resolver: initially the empty
string, possibly set to an argument value, to JS `undefined` (when an
absent argument is assigned), or to the delivery-manifest nested-body
record `\x7bpath, method\x7d`. -/
inductive Body where
  | empty
  | jsUndefined
  | val (v : JVal)
  | manifest (path method : String)
deriving DecidableEq, Repr

/-- `body = args[i]` where the argument may be absent (JS `undefined`). -/
def optBody : Option JVal → Body
  | some v => .val v
  | none => .jsUndefined

/-- The mutable locals of `Methods`: `url`, `body`, `hasBody`, plus the
`X-API-Key` header entry the manifest block may write into the client's
header map. -/
structure ResolveState where
  url : String
  body : Body
  hasBody : Bool
  xApiKey : Option String
deriving DecidableEq, Repr

/-- Initial state (`src/lib/Methods.js` lines 17-19). -/
def initState (api : ApiConfig) (d : Descriptor) : ResolveState :=
  { url := api.baseUrl ++ d.path, body := .empty, hasBody := false, xApiKey := none }

/-- The lookup-type tags checked against `args[1]`
(`src/lib/Methods.js` line 28). -/
def lookupTags : List String :=
  ["name", "shortId", "phone", "workers", "organizations", "teams"]

/-- Lines 22-24: no arguments, GET, truthy altPath → use the alternate path. -/
def stepNoArgs (api : ApiConfig) (d : Descriptor) (args : List JVal)
    (st : ResolveState) : ResolveState :=
  if args.length = 0 ∧ d.method = "GET" ∧ jsTruthyOptS d.altPath then
    { st with url := api.baseUrl ++ jsStrOpt d.altPath }
  else st

/-- The else-if chain of lines 30-34, reached when `args[1]` is not a
lookup tag. -/
def stepArgsNonTag (api : ApiConfig) (d : Descriptor) (a0 : JVal)
    (st : ResolveState) : ResolveState :=
  if isBase64Opt (some a0) then
    { st with url := replaceWithId st.url (jvalToString a0) }
  else
    { st with url := api.baseUrl ++ jsStrOpt d.altPath }

/-- Lines 27-40: one or more arguments with a GET/DELETE/PUT verb —
lookup-tag branch, identifier branch, altPath fallback, then the PUT
body assignment. -/
def stepArgs (api : ApiConfig) (d : Descriptor) (args : List JVal)
    (st : ResolveState) : ResolveState :=
  match args with
  | [] => st
  | a0 :: rest =>
    if d.method = "GET" ∨ d.method = "DELETE" ∨ d.method = "PUT" then
      let st :=
        match rest.head? with
        | some (.str t) =>
          if lookupTags.contains t then
            { st with url := replaceWithEndpointAndParam st.url t (jvalToString a0) }
          else stepArgsNonTag api d a0 st
        | _ => stepArgsNonTag api d a0 st
      if d.method = "PUT" then
        { st with body := optBody rest.head?, hasBody := true }
      else st
    else st

/-- Lines 41-48: PUT/DELETE on a url containing "customFields" sets the
body to the first argument (`Array.isArray(args)` always holds for a
rest parameter). -/
def stepCustomFields (d : Descriptor) (args : List JVal)
    (st : ResolveState) : ResolveState :=
  if (d.method = "PUT" ∨ d.method = "DELETE") ∧ strContains st.url "customFields" then
    { st with body := optBody args.head?, hasBody := true }
  else st

/-- Lines 50-61: POST — identifier first argument becomes a path
segment with a truthy second argument as body; otherwise the first
argument is the body. -/
def stepPost (d : Descriptor) (args : List JVal)
    (st : ResolveState) : ResolveState :=
  if d.method = "POST" then
    if isBase64Opt args.head? then
      let st := { st with url := replaceWithId st.url (jsCoerceOpt args.head?) }
      if jsTruthyOptV (args.get? 1) then
        { st with body := optBody (args.get? 1), hasBody := true }
      else st
    else
      { st with body := optBody args.head?, hasBody := true }
  else st

/-- One iteration of the query-parameter loop body (lines 65-69). -/
def queryStep (st : ResolveState) (el : JVal) : ResolveState :=
  match el with
  | .str _ => st
  | .obj o => { st with url := appendQueryParameters st.url o }

/-- Lines 63-70: when the descriptor allows query parameters, append
every query-object argument to the url. -/
def stepQuery (d : Descriptor) (args : List JVal)
    (st : ResolveState) : ResolveState :=
  if d.queryParams then args.foldl queryStep st else st

/-- One iteration of the delivery-manifest loop body (lines 74-91):
hubId+workerId rewrite the body to the nested manifest request, a
googleApiKey writes the X-API-Key header, start/end dates append query
parameters. -/
def manifestStep (st : ResolveState) (el : JVal) : ResolveState :=
  match el with
  | .str _ => st
  | .obj o =>
    let st :=
      if o.truthyField "hubId" ∧ o.truthyField "workerId" then
        { st with
            body := .manifest
              ("providers/manifest/generate?hubId=" ++ o.fieldD "hubId"
                ++ "&workerId=" ++ o.fieldD "workerId") "GET",
            hasBody := true }
      else st
    let st :=
      if o.truthyField "googleApiKey" then
        { st with xApiKey := some ("Google " ++ o.fieldD "googleApiKey") }
      else st
    if o.truthyField "startDate" ∨ o.truthyField "endDate" then
      let qp : JObj := JObj.mk
        ((if o.truthyField "startDate" then [("startDate", o.fieldD "startDate")] else [])
          ++ (if o.truthyField "endDate" then [("endDate", o.fieldD "endDate")] else []))
      { st with url := appendQueryParameters st.url qp }
    else st

/-- Lines 72-92: the delivery-manifest block. -/
def stepManifest (d : Descriptor) (args : List JVal)
    (st : ResolveState) : ResolveState :=
  if d.deliveryManifestObject ∧ 0 < args.length then args.foldl manifestStep st
  else st

/-- State after the argument-interpretation blocks (lines 17-40). -/
def afterArgs (api : ApiConfig) (d : Descriptor) (args : List JVal) : ResolveState :=
  stepArgs api d args (stepNoArgs api d args (initState api d))

/-- The remaining blocks after line 40, in source order: custom fields,
POST, query parameters, delivery manifest. -/
def resolveTail (d : Descriptor) (args : List JVal) (st : ResolveState) : ResolveState :=
  stepManifest d args (stepQuery d args (stepPost d args (stepCustomFields d args st)))

/-- The full URL/Body resolver: lines 17-92 of `src/lib/Methods.js`,
blocks composed in source order. -/
def resolve (api : ApiConfig) (d : Descriptor) (args : List JVal) : ResolveState :=
  resolveTail d args (afterArgs api d args)

/-! ## Dispatcher and error classification (`src/lib/Methods.js` lines 95-135) -/

/-- The error kinds of the taxonomy.  The constructors of `error.js`
(not under `src/`) are modelled as tags; `Generic` is the kind produced
by `createError("GenericError", ...)` in the catch block, `Validation`
by `ValidationError` in the client constructor. -/
inductive ErrKind where
  | RateLimit
  | Permission
  | Service
  | Http
  | Generic
  | Validation
deriving DecidableEq, Repr

/-- The parsed `message` object of a remote failure payload
(`\x7b message: \x7b error, message, cause, request \x7d \x7d`);
every field may be absent. -/
structure ErrMsg where
  error : Option Nat
  message : Option String
  cause : Option String
  request : Option String
deriving DecidableEq, Repr

/-- A parsed JSON response body: either an object whose `message` field
(possibly absent) is inspected by the failure path, or any other JSON
value, treated opaquely. -/
inductive JsonBody where
  | errObj (message : Option ErrMsg)
  | other (s : String)
deriving DecidableEq, Repr

/-- Outcome of the `fetch` call: the promise rejects (network failure /
local timeout), or a response arrives with a status, its `ok` flag, and
a body that parses as JSON or does not (`none`). -/
inductive FetchResult where
  | fail
  | resp (status : Nat) (ok : Bool) (body : Option JsonBody)
deriving DecidableEq, Repr

/-- The classifier chain of lines 122-132: which typed error is thrown
for a given `error.message.error` code.  An absent code (`undefined` in
JS) fails every comparison and falls through to `Http`. -/
def classify (errorCode : Option Nat) : ErrKind :=
  match errorCode with
  | some c =>
    if c = 2300 then .RateLimit
    else if 1100 ≤ c ∧ c ≤ 1108 then .Permission
    else if 2500 ≤ c then .Service
    else if c = 2218 then .Service
    else .Http
  | none => .Http

/-- An exception raised inside the `try` block: a typed error thrown by
the classifier chain, or a native failure (fetch rejection, JSON parse
rejection on the failure path, property access on `undefined`). -/
inductive Thrown where
  | typed (k : ErrKind)
  | native
deriving DecidableEq, Repr

/-- A resolved value of the dispatch: a numeric status code or a parsed
JSON body. -/
inductive DispatchValue where
  | statusCode (n : Nat)
  | parsedBody (b : JsonBody)
deriving DecidableEq, Repr

/-- The body of the `try` block (lines 96-132): success handling, then
parsing of the failure payload and the classifier chain.  On the
failure path, a body that is not JSON makes `await res.json()` reject;
a JSON body without a `message` object makes `error.message.error`
throw; otherwise the classified typed error is thrown. -/
def tryDispatch (operation : String) (f : FetchResult) : Except Thrown DispatchValue :=
  match f with
  | .fail => .error .native
  | .resp status ok body =>
    if ok then
      if operation = "DELETE" then .ok (.statusCode status)
      else
        match body with
        | some b => .ok (.parsedBody b)
        | none => .ok (.statusCode status)
    else
      match body with
      | none => .error .native
      | some (.other _) => .error .native
      | some (.errObj none) => .error .native
      | some (.errObj (some m)) => .error (.typed (classify m.error))

/-- The whole `try`/`catch` of lines 95-135: any exception raised inside
the `try` block — native or typed — is caught and replaced by
`createError("GenericError", "An error occurred")`. -/
def Methods (operation : String) (f : FetchResult) : Except ErrKind DispatchValue :=
  match tryDispatch operation f with
  | .ok v => .ok v
  | .error _ => .error .Generic

/-! ## Limiter configuration (`src/lib/onfleet.js` lines 112-139) -/

/-- The Bottleneck settings the configuration guard updates. -/
structure LimiterSettings where
  maxConcurrent : Int
  minTime : Int
deriving DecidableEq, Repr

/-- The caller-supplied `bottleneckOptions`; absent fields are `none`.
Numeric values are modelled as integers (`Number(...)` conversion of a
numeric option is the identity; a non-numeric option fails the `isNaN`
guard and is dropped, the same outcome as an absent field). -/
structure BottleneckOptions where
  maxConcurrent : Option Int
  minTime : Option Int
deriving DecidableEq, Repr

/-- `initBottleneckOptions` (lines 112-139): `maxConcurrent` is applied
only when truthy, a number, positive and strictly below the ceiling 20;
`minTime` only when truthy, a number and strictly above the floor 50.
Anything else leaves the settings unchanged. -/
def initBottleneckOptions (s : LimiterSettings) (o : BottleneckOptions) : LimiterSettings :=
  let s1 :=
    match o.maxConcurrent with
    | some m =>
      if m ≠ 0 then
        if 0 < m ∧ m < 20 then { s with maxConcurrent := m } else s
      else s
    | none => s
  match o.minTime with
  | some m =>
    if m ≠ 0 then
      if 50 < m then { s1 with minTime := m } else s1
    else s1
  | none => s1

/-! ## Client constructor (`src/lib/onfleet.js` lines 57-101) -/

/-- `DEFAULT_TIMEOUT` (line 22). -/
def DEFAULT_TIMEOUT : Nat := 70000

/-- `DEFAULT_URL`, `DEFAULT_PATH`, `DEFAULT_API_VERSION` (lines 19-21). -/
def DEFAULT_URL : String := "https://onfleet.com"

def DEFAULT_PATH : String := "/api"

def DEFAULT_API_VERSION : String := "/v2"

/-- A `ValidationError` record (`error.js` is not under `src/`; the
spec's taxonomy gives each error a message). -/
structure ValidationErrorRec where
  message : String
deriving DecidableEq, Repr

/-- The standard base64 alphabet. -/
def b64Char (n : Nat) : Char :=
  "ABCDEFGHIJKLMNOPQRSTUVWXYZabcdefghijklmnopqrstuvwxyz0123456789+/".toList.getD n 'A'

/-- Base64 of a byte list, processed three bytes at a time with `=`
padding. -/
def base64Encode : List Nat → String
  | [] => ""
  | [b0] =>
    String.mk [b64Char (b0 / 4), b64Char (b0 % 4 * 16)] ++ "=="
  | [b0, b1] =>
    String.mk [b64Char (b0 / 4), b64Char (b0 % 4 * 16 + b1 / 16),
      b64Char (b1 % 16 * 4)] ++ "="
  | b0 :: b1 :: b2 :: rest =>
    String.mk [b64Char (b0 / 4), b64Char (b0 % 4 * 16 + b1 / 16),
      b64Char (b1 % 16 * 4 + b2 / 64), b64Char (b2 % 64)] ++ base64Encode rest

/-- Modelled from the spec: `util.js` is not under `src/`.  `encode`
derives the HTTP Basic credential from the API key ("a Basic-auth-style
Authorization header derived from an API key"): base64 of the key's
code points (API keys are ASCII). -/
def encode (apiKey : String) : String :=
  base64Encode (apiKey.toList.map Char.toNat)

/-- The options object destructured by the constructor (lines 65-72);
absent fields take the declared defaults. -/
structure ConstructorOptions where
  apiKey : Option String
  userTimeout : Option Nat
  bottleneckOptions : Option BottleneckOptions
  baseURL : Option String
  defaultPath : Option String
  defaultApiVersion : Option String
deriving DecidableEq, Repr

/-- The `api` record the constructor builds (line 85-93). -/
structure OnfleetApi where
  baseUrl : String
  timeout : Nat
  headers : List (String × String)
deriving DecidableEq, Repr

/-- The `Onfleet` constructor (lines 65-101): validation of the API key
and timeout, then the `api` record with its default headers, then the
optional limiter reconfiguration (the static limiter is threaded as
explicit state).  `pkgName`/`pkgVersion` come from `package.json`,
which is not under `src/`. -/
def OnfleetConstructor (pkgName pkgVersion : String) (limiter : LimiterSettings)
    (opts : ConstructorOptions) : Except ValidationErrorRec (OnfleetApi × LimiterSettings) :=
  let userTimeout := opts.userTimeout.getD DEFAULT_TIMEOUT
  let baseURL := opts.baseURL.getD DEFAULT_URL
  let defaultPath := opts.defaultPath.getD DEFAULT_PATH
  let defaultApiVersion := opts.defaultApiVersion.getD DEFAULT_API_VERSION
  if ¬ jsTruthyOptS opts.apiKey then
    .error ⟨"Onfleet API key not found, please obtain an API key from your organization admin"⟩
  else if DEFAULT_TIMEOUT < userTimeout then
    .error ⟨"User-defined timeout has to be shorter than 70000ms"⟩
  else
    let api : OnfleetApi :=
      { baseUrl := baseURL ++ defaultPath ++ defaultApiVersion,
        timeout := userTimeout,
        headers :=
          [("Content-Type", "application/json"),
           ("User-Agent", pkgName ++ "-" ++ pkgVersion),
           ("Authorization", "Basic " ++ encode (opts.apiKey.getD ""))] }
    let limiter2 :=
      match opts.bottleneckOptions with
      | some b => initBottleneckOptions limiter b
      | none => limiter
    .ok (api, limiter2)

/-- Headers of a successful construction, `none` on a validation error. -/
def headersOf (r : Except ValidationErrorRec (OnfleetApi × LimiterSettings)) :
    Option (List (String × String)) :=
  match r with
  | .ok (a, _) => some a.headers
  | .error _ => none

/-! ## Helper lemmas -/

theorem self_ext (u : String) : ∃ suf : String, u = u ++ suf :=
  ⟨"", by simp⟩

theorem appendQueryParameters_ext (url : String) (o : JObj) :
    ∃ suf, appendQueryParameters url o = url ++ suf := by
  refine ⟨"?" ++ String.intercalate "&" (o.pairs.map (fun p => p.1 ++ "=" ++ p.2)), ?_⟩
  unfold appendQueryParameters
  rw [String.append_assoc]

theorem replaceWithId_ext (url id : String) :
    ∃ suf, replaceWithId url id = url ++ suf := by
  refine ⟨"/" ++ id, ?_⟩
  unfold replaceWithId
  rw [String.append_assoc]

theorem queryStep_url_ext (st : ResolveState) (el : JVal) :
    ∃ suf, (queryStep st el).url = st.url ++ suf := by
  cases el with
  | str s => exact ⟨"", by simp [queryStep]⟩
  | obj o => simpa [queryStep] using appendQueryParameters_ext st.url o

theorem manifestStep_url_ext (st : ResolveState) (el : JVal) :
    ∃ suf, (manifestStep st el).url = st.url ++ suf := by
  cases el with
  | str s => exact ⟨"", by simp [manifestStep]⟩
  | obj o =>
    simp only [manifestStep]
    split_ifs <;>
      first
      | exact self_ext _
      | exact appendQueryParameters_ext st.url _

theorem foldl_url_ext (f : ResolveState → JVal → ResolveState)
    (hf : ∀ st el, ∃ suf, (f st el).url = st.url ++ suf) :
    ∀ (args : List JVal) (st : ResolveState),
      ∃ suf, (args.foldl f st).url = st.url ++ suf := by
  intro args
  induction args with
  | nil => exact fun st => ⟨"", by simp⟩
  | cons a as ih =>
    intro st
    obtain ⟨s0, h0⟩ := hf st a
    obtain ⟨s1, h1⟩ := ih (f st a)
    exact ⟨s0 ++ s1, by rw [List.foldl_cons, h1, h0, String.append_assoc]⟩

theorem stepQuery_url_ext (d : Descriptor) (args : List JVal) (st : ResolveState) :
    ∃ suf, (stepQuery d args st).url = st.url ++ suf := by
  unfold stepQuery
  split_ifs
  · exact foldl_url_ext queryStep queryStep_url_ext args st
  · exact ⟨"", by simp⟩

theorem stepManifest_url_ext (d : Descriptor) (args : List JVal) (st : ResolveState) :
    ∃ suf, (stepManifest d args st).url = st.url ++ suf := by
  unfold stepManifest
  split_ifs
  · exact foldl_url_ext manifestStep manifestStep_url_ext args st
  · exact ⟨"", by simp⟩

theorem stepPost_url_ext (d : Descriptor) (args : List JVal) (st : ResolveState) :
    ∃ suf, (stepPost d args st).url = st.url ++ suf := by
  unfold stepPost
  split_ifs <;>
    first
    | exact self_ext _
    | exact replaceWithId_ext st.url _

theorem stepCustomFields_url (d : Descriptor) (args : List JVal) (st : ResolveState) :
    (stepCustomFields d args st).url = st.url := by
  unfold stepCustomFields
  split_ifs <;> rfl

theorem resolveTail_url_ext (d : Descriptor) (args : List JVal) (st : ResolveState) :
    ∃ suf, (resolveTail d args st).url = st.url ++ suf := by
  unfold resolveTail
  obtain ⟨s1, h1⟩ := stepPost_url_ext d args (stepCustomFields d args st)
  obtain ⟨s2, h2⟩ :=
    stepQuery_url_ext d args (stepPost d args (stepCustomFields d args st))
  obtain ⟨s3, h3⟩ := stepManifest_url_ext d args
    (stepQuery d args (stepPost d args (stepCustomFields d args st)))
  refine ⟨s1 ++ s2 ++ s3, ?_⟩
  rw [h3, h2, h1, stepCustomFields_url]
  simp [String.append_assoc]

theorem queryStep_body (st : ResolveState) (el : JVal) :
    (queryStep st el).body = st.body ∧ (queryStep st el).hasBody = st.hasBody := by
  cases el <;> simp [queryStep]

theorem foldl_queryStep_body (args : List JVal) :
    ∀ st : ResolveState, (args.foldl queryStep st).body = st.body ∧
      (args.foldl queryStep st).hasBody = st.hasBody := by
  induction args with
  | nil => intro st; simp
  | cons a as ih =>
    intro st
    obtain ⟨hb, hh⟩ := queryStep_body st a
    obtain ⟨ib, ih2⟩ := ih (queryStep st a)
    exact ⟨by rw [List.foldl_cons, ib, hb], by rw [List.foldl_cons, ih2, hh]⟩

theorem stepQuery_body (d : Descriptor) (args : List JVal) (st : ResolveState) :
    (stepQuery d args st).body = st.body ∧ (stepQuery d args st).hasBody = st.hasBody := by
  unfold stepQuery
  split_ifs
  · exact foldl_queryStep_body args st
  · exact ⟨rfl, rfl⟩

theorem stepManifest_off (d : Descriptor) (args : List JVal) (st : ResolveState)
    (h : d.deliveryManifestObject = false) : stepManifest d args st = st := by
  unfold stepManifest
  rw [if_neg]
  simp [h]

theorem stepPost_nonPost (d : Descriptor) (args : List JVal) (st : ResolveState)
    (h : d.method ≠ "POST") : stepPost d args st = st := by
  unfold stepPost
  rw [if_neg h]

/-! ## Concrete inputs used by witnesses and counterexamples -/

/-- The base url built by the client constructor with all defaults. -/
def apiV2 : ApiConfig := ⟨"https://onfleet.com/api/v2"⟩

/-- A task-resource GET descriptor (primary path `/tasks`, alternate
path `/tasks/all`, query parameters allowed). -/
def tasksGetDescriptor : Descriptor :=
  ⟨"/tasks", some "/tasks/all", "GET", true, false, none⟩

/-- A task-resource POST descriptor. -/
def tasksPostDescriptor : Descriptor :=
  ⟨"/tasks", none, "POST", false, false, none⟩

/-- A custom-field PUT descriptor. -/
def customFieldsPutDescriptor : Descriptor :=
  ⟨"/customFields", none, "PUT", false, false, none⟩

/-- A failure payload carrying the remote rate-limit code 2300. -/
def msg2300 : ErrMsg := ⟨some 2300, some "rate limited", none, none⟩

/-- A failed response whose parsed body carries `message.error = 2300`. -/
def resp2300 : FetchResult := .resp 429 false (some (.errObj (some msg2300)))

/-! ## Claim theorems -/

/-- C1, counterexample: for the failed response whose parsed body
carries `message.error = 2300`, the caller does not observe a RateLimit
error — the dispatch result is the generic error, because the typed
throw happens inside the `try` block whose `catch` replaces every
exception with `createError("GenericError", ...)`. -/
theorem caller_observes_generic_not_rateLimit :
    Methods "GET" resp2300 = .error .Generic ∧
    Methods "GET" resp2300 ≠ .error .RateLimit := by
  have h : Methods "GET" resp2300 = .error .Generic := rfl
  refine ⟨h, ?_⟩
  rw [h]
  simp

/-- C1, amended: for every failed HTTP response whose parsed body
carries a `message.error` code, the classifier chain inside dispatch
throws RateLimit for 2300, Permission for 1100-1108, Service for
≥ 2500 or 2218, and Http otherwise — but the surrounding catch-all
converts that typed error, so the caller observes the generic error. -/
theorem classifier_typed_but_caller_sees_generic (op : String) (status : Nat)
    (m : ErrMsg) (c : Nat) (h : m.error = some c) :
    tryDispatch op (.resp status false (some (.errObj (some m)))) =
      .error (.typed (classify (some c))) ∧
    (c = 2300 → classify (some c) = .RateLimit) ∧
    (1100 ≤ c ∧ c ≤ 1108 → classify (some c) = .Permission) ∧
    (2500 ≤ c ∨ c = 2218 → classify (some c) = .Service) ∧
    (c ≠ 2300 → ¬(1100 ≤ c ∧ c ≤ 1108) → c < 2500 → c ≠ 2218 →
      classify (some c) = .Http) ∧
    Methods op (.resp status false (some (.errObj (some m)))) = .error .Generic := by
  refine ⟨?_, ?_, ?_, ?_, ?_, ?_⟩
  · simp [tryDispatch, h]
  · rintro rfl; decide
  · rintro ⟨h1, h2⟩
    simp only [classify]
    rw [if_neg (by omega), if_pos ⟨h1, h2⟩]
  · rintro (h1 | rfl)
    · simp only [classify]
      rw [if_neg (by omega), if_neg (by omega), if_pos h1]
    · decide
  · intro h1 h2 h3 h4
    simp only [classify]
    rw [if_neg h1, if_neg h2, if_neg (by omega), if_neg h4]
  · simp [Methods, tryDispatch, h]

/-- C1, witness: the amended claim applied at code 2300 — the typed
throw is RateLimit, the observed error is Generic. -/
theorem classifier_typed_but_caller_sees_generic_witness :
    tryDispatch "GET" resp2300 = .error (.typed (classify (some 2300))) ∧
    classify (some 2300) = ErrKind.RateLimit ∧
    Methods "GET" resp2300 = .error .Generic := by
  have h := classifier_typed_but_caller_sees_generic "GET" 429 msg2300 2300 rfl
  exact ⟨h.1, h.2.1 rfl, h.2.2.2.2.2⟩

/-- C2: every failure category that is not a classified failure-status
body — fetch rejection, non-JSON failure body, failure body without the
expected `message` object — throws a native exception inside the `try`,
and every such exception surfaces to the caller as the single generic
error that carries no underlying-cause information. -/
theorem dispatch_failure_raises_generic (op : String) (f : FetchResult)
    (status : Nat) (s : String)
    (h : tryDispatch op f = .error .native) :
    Methods op f = .error .Generic ∧
    tryDispatch op .fail = .error .native ∧
    tryDispatch op (.resp status false none) = .error .native ∧
    tryDispatch op (.resp status false (some (.other s))) = .error .native ∧
    tryDispatch op (.resp status false (some (.errObj none))) = .error .native := by
  exact ⟨by simp [Methods, h], rfl, rfl, rfl, rfl⟩

/-- C2, witness: a network failure surfaces as the generic error. -/
theorem dispatch_failure_raises_generic_witness :
    Methods "GET" .fail = .error .Generic :=
  (dispatch_failure_raises_generic "GET" .fail 500 "oops" rfl).1

/-- C3: the limiter configuration applies `maxConcurrent` exactly when
it is positive and strictly below 20, and `minTime` exactly when it is
strictly above 50; out-of-range values leave the existing settings
unchanged and produce no error (in particular `maxConcurrent = 50` and
`minTime = 1` change nothing, while `maxConcurrent = 5` and
`minTime = 100` are applied). -/
theorem limiter_configure_bounds (s : LimiterSettings) (o : BottleneckOptions) :
    ((initBottleneckOptions s o).maxConcurrent =
      match o.maxConcurrent with
      | some m => if 0 < m ∧ m < 20 then m else s.maxConcurrent
      | none => s.maxConcurrent) ∧
    ((initBottleneckOptions s o).minTime =
      match o.minTime with
      | some m => if 50 < m then m else s.minTime
      | none => s.minTime) ∧
    initBottleneckOptions s ⟨some 50, some 1⟩ = s ∧
    initBottleneckOptions s ⟨some 5, some 100⟩ = ⟨5, 100⟩ := by
  obtain ⟨mc, mt⟩ := o
  refine ⟨?_, ?_, ?_, ?_⟩
  · rcases mc with _ | m <;> rcases mt with _ | n <;>
      simp only [initBottleneckOptions] <;> split_ifs <;>
      first | rfl | omega
  · rcases mc with _ | m <;> rcases mt with _ | n <;>
      simp only [initBottleneckOptions] <;> split_ifs <;>
      first | rfl | omega
  · rfl
  · rfl

/-- C4: on a success-status response, a DELETE operation resolves to
the numeric status code; any other operation resolves to the parsed
body, and to the numeric status code when the body fails to parse. -/
theorem dispatch_success (op : String) (status : Nat) (b : JsonBody)
    (hop : op ≠ "DELETE") :
    Methods "DELETE" (.resp status true (some b)) = .ok (.statusCode status) ∧
    Methods "DELETE" (.resp status true none) = .ok (.statusCode status) ∧
    Methods op (.resp status true (some b)) = .ok (.parsedBody b) ∧
    Methods op (.resp status true none) = .ok (.statusCode status) := by
  refine ⟨?_, ?_, ?_, ?_⟩ <;> simp [Methods, tryDispatch, hop]

/-- C4, witness: a successful DELETE resolves to 200; a successful GET
with an unparseable body also resolves to 200. -/
theorem dispatch_success_witness :
    Methods "DELETE" (.resp 200 true (some (.other "x"))) = .ok (.statusCode 200) ∧
    Methods "GET" (.resp 200 true none) = .ok (.statusCode 200) := by
  have h := dispatch_success "GET" 200 (.other "x") (by decide)
  exact ⟨h.1, h.2.2.2⟩

/-- C5: with zero arguments, a GET verb and a defined (truthy)
alternate path, the resolved url is the base url concatenated with the
alternate path, not the primary path. -/
theorem resolve_noArgs_altPath (api : ApiConfig) (d : Descriptor) (p : String)
    (hm : d.method = "GET") (hp : d.altPath = some p) (hne : p ≠ "") :
    (resolve api d []).url = api.baseUrl ++ p := by
  simp [resolve, resolveTail, afterArgs, stepArgs, stepNoArgs, initState,
    stepCustomFields, stepPost, stepQuery, stepManifest, hm, hp, hne,
    jsTruthyOptS, jsStrOpt]

/-- C5, witness: the task-list call with no arguments resolves to the
alternate "list all" path. -/
theorem resolve_noArgs_altPath_witness :
    (resolve apiV2 tasksGetDescriptor []).url = "https://onfleet.com/api/v2" ++ "/tasks/all" :=
  resolve_noArgs_altPath apiV2 tasksGetDescriptor "/tasks/all" rfl rfl (by decide)

/-- C6: for a GET/DELETE/PUT call with at least one argument whose
second argument is a lookup-type tag, the resolved url substitutes the
first argument with that tag as the parameter name (later blocks can
only append query-string suffixes).  The first argument `a0` is
arbitrary — in particular it may itself be identifier-shaped — so the
lookup-tag branch takes precedence over the identifier-shape branch. -/
theorem resolve_lookupTag_precedence (api : ApiConfig) (d : Descriptor)
    (a0 : JVal) (t : String) (rest : List JVal)
    (hm : d.method = "GET" ∨ d.method = "DELETE" ∨ d.method = "PUT")
    (ht : lookupTags.contains t = true) :
    ∃ suffix, (resolve api d (a0 :: JVal.str t :: rest)).url =
      replaceWithEndpointAndParam (api.baseUrl ++ d.path) t (jvalToString a0) ++ suffix := by
  obtain ⟨suf, hsuf⟩ := resolveTail_url_ext d (a0 :: .str t :: rest)
    (afterArgs api d (a0 :: .str t :: rest))
  refine ⟨suf, ?_⟩
  have hurl : (afterArgs api d (a0 :: JVal.str t :: rest)).url =
      replaceWithEndpointAndParam (api.baseUrl ++ d.path) t (jvalToString a0) := by
    have htm : t ∈ lookupTags := by simpa using ht
    rcases hm with h | h | h <;>
      simp [afterArgs, stepArgs, stepNoArgs, initState, h, ht, htm]
  unfold resolve
  rw [hsuf, hurl]

/-- C6, witness: the task lookup by shortId — the first argument is
itself identifier-shaped, yet the lookup-tag path is used. -/
theorem resolve_lookupTag_precedence_witness :
    isBase64EncodedStr "44a56188" = true ∧
    (∃ suffix, (resolve apiV2 tasksGetDescriptor [JVal.str "44a56188", JVal.str "shortId"]).url =
      replaceWithEndpointAndParam ("https://onfleet.com/api/v2" ++ "/tasks") "shortId" "44a56188" ++ suffix) :=
  ⟨by decide,
    resolve_lookupTag_precedence apiV2 tasksGetDescriptor (JVal.str "44a56188")
      "shortId" [] (Or.inl rfl) (by decide)⟩

/-- C7: for a PUT or DELETE call with at least one argument whose url
after argument interpretation addresses a custom-field sub-resource,
the first argument becomes the request body — for PUT this overrides
the body the general PUT rule had already set to the second argument. -/
theorem resolve_customFields_body (api : ApiConfig) (d : Descriptor)
    (a0 : JVal) (rest : List JVal)
    (hm : d.method = "PUT" ∨ d.method = "DELETE")
    (hcf : strContains (afterArgs api d (a0 :: rest)).url "customFields" = true)
    (hman : d.deliveryManifestObject = false) :
    (resolve api d (a0 :: rest)).body = Body.val a0 ∧
    (resolve api d (a0 :: rest)).hasBody = true := by
  have hpost : d.method ≠ "POST" := by rcases hm with h | h <;> simp [h]
  unfold resolve resolveTail
  rw [stepManifest_off _ _ _ hman]
  have h3 : stepCustomFields d (a0 :: rest) (afterArgs api d (a0 :: rest)) =
      { afterArgs api d (a0 :: rest) with body := Body.val a0, hasBody := true } := by
    unfold stepCustomFields
    rw [if_pos ⟨hm, hcf⟩]
    simp [optBody]
  rw [h3, stepPost_nonPost _ _ _ hpost]
  obtain ⟨hb, hh⟩ := stepQuery_body d (a0 :: rest)
    { afterArgs api d (a0 :: rest) with body := Body.val a0, hasBody := true }
  exact ⟨by rw [hb], by rw [hh]⟩

/-- C7, witness: a custom-field PUT whose second argument had become
the body under the general PUT rule ends with the first argument as
body. -/
theorem resolve_customFields_body_witness :
    (resolve apiV2 customFieldsPutDescriptor
      [JVal.str "AqzN6ZAq*qlSDJ0FzmZIMZz~", JVal.str "x"]).body =
        Body.val (JVal.str "AqzN6ZAq*qlSDJ0FzmZIMZz~") ∧
    (resolve apiV2 customFieldsPutDescriptor
      [JVal.str "AqzN6ZAq*qlSDJ0FzmZIMZz~", JVal.str "x"]).hasBody = true :=
  resolve_customFields_body apiV2 customFieldsPutDescriptor
    (JVal.str "AqzN6ZAq*qlSDJ0FzmZIMZz~") [JVal.str "x"]
    (Or.inl rfl) (by decide) rfl

/-- C8, counterexample: a POST call whose first argument is
identifier-shaped and whose second argument is the (falsy) empty
string: a second argument exists, but the resolver sets no body at all
— refuting the claim that an existing second argument always becomes
the body. -/
theorem post_secondArg_falsy_no_body :
    (resolve apiV2 tasksPostDescriptor
      [JVal.str "SxD9Ran6pOfnUDgfTecTsgXd", JVal.str ""]).body = Body.empty ∧
    (resolve apiV2 tasksPostDescriptor
      [JVal.str "SxD9Ran6pOfnUDgfTecTsgXd", JVal.str ""]).hasBody = false := by
  decide

/-- C8, amended: for a POST call (on a non-delivery-manifest
descriptor) with at least one argument — if the first argument is
identifier-shaped it becomes a path segment and a *truthy* second
argument becomes the body, while a falsy or absent second argument
leaves the request with no body; if the first argument is not
identifier-shaped it itself becomes the body. -/
theorem resolve_post (api : ApiConfig) (d : Descriptor) (a0 : JVal) (rest : List JVal)
    (hm : d.method = "POST") (hman : d.deliveryManifestObject = false) :
    (isBase64EncodedStr (jvalToString a0) = true →
      (∃ suf, (resolve api d (a0 :: rest)).url =
        replaceWithId (api.baseUrl ++ d.path) (jvalToString a0) ++ suf) ∧
      (∀ a1, rest.head? = some a1 → jsTruthyV a1 = true →
        (resolve api d (a0 :: rest)).body = Body.val a1 ∧
        (resolve api d (a0 :: rest)).hasBody = true) ∧
      (jsTruthyOptV rest.head? = false →
        (resolve api d (a0 :: rest)).body = Body.empty ∧
        (resolve api d (a0 :: rest)).hasBody = false)) ∧
    (isBase64EncodedStr (jvalToString a0) = false →
      (resolve api d (a0 :: rest)).body = Body.val a0 ∧
      (resolve api d (a0 :: rest)).hasBody = true) := by
  have hb64 : isBase64Opt ((a0 :: rest).head?) = isBase64EncodedStr (jvalToString a0) := rfl
  have hget : (a0 :: rest).get? 1 = rest.head? := by
    show rest.get? 0 = rest.head?
    cases rest <;> rfl
  have hAfter : afterArgs api d (a0 :: rest) = initState api d := by
    simp [afterArgs, stepArgs, stepNoArgs, hm]
  have hCF : stepCustomFields d (a0 :: rest) (initState api d) = initState api d := by
    unfold stepCustomFields
    rw [if_neg]
    rintro ⟨h1 | h1, _⟩ <;> rw [hm] at h1 <;> exact absurd h1 (by decide)
  unfold resolve resolveTail
  rw [stepManifest_off _ _ _ hman, hAfter, hCF]
  obtain ⟨hqb, hqh⟩ := stepQuery_body d (a0 :: rest)
    (stepPost d (a0 :: rest) (initState api d))
  constructor
  · intro h64
    refine ⟨?_, ?_, ?_⟩
    · obtain ⟨s2, h2⟩ := stepQuery_url_ext d (a0 :: rest)
        (stepPost d (a0 :: rest) (initState api d))
      refine ⟨s2, ?_⟩
      rw [h2]
      have hpu : (stepPost d (a0 :: rest) (initState api d)).url =
          replaceWithId (api.baseUrl ++ d.path) (jvalToString a0) := by
        unfold stepPost
        rw [if_pos hm, if_pos (by rw [hb64, h64])]
        split_ifs <;> rfl
      rw [hpu]
    · intro a1 ha1 htr
      have hpb : stepPost d (a0 :: rest) (initState api d) =
          { initState api d with
              url := replaceWithId (initState api d).url (jsCoerceOpt (a0 :: rest).head?),
              body := Body.val a1, hasBody := true } := by
        unfold stepPost
        rw [if_pos hm, if_pos (by rw [hb64, h64]),
          if_pos (by rw [hget, ha1]; exact htr), hget, ha1]
        rfl
      rw [hqb, hqh, hpb]
      exact ⟨rfl, rfl⟩
    · intro hfalsy
      have hpb : stepPost d (a0 :: rest) (initState api d) =
          { initState api d with
              url := replaceWithId (initState api d).url (jsCoerceOpt (a0 :: rest).head?) } := by
        unfold stepPost
        rw [if_pos hm, if_pos (by rw [hb64, h64]), if_neg (by rw [hget, hfalsy]; simp)]
      rw [hqb, hqh, hpb]
      exact ⟨rfl, rfl⟩
  · intro h64
    have hpb : stepPost d (a0 :: rest) (initState api d) =
        { initState api d with body := Body.val a0, hasBody := true } := by
      unfold stepPost
      rw [if_pos hm, if_neg (by rw [hb64, h64]; simp)]
      rfl
    rw [hqb, hqh, hpb]
    exact ⟨rfl, rfl⟩

/-- C8, witness: the amended claim at concrete inputs — an
identifier-shaped first argument with a truthy object second argument
makes the object the body; a creation-payload object first argument
becomes the body itself. -/
theorem resolve_post_witness :
    ((resolve apiV2 tasksPostDescriptor
      [JVal.str "6Fe3qqFZ0DDwsM86zBlHJtlJ", JVal.obj ⟨[("notes", "done")]⟩]).body =
        Body.val (JVal.obj ⟨[("notes", "done")]⟩) ∧
      (resolve apiV2 tasksPostDescriptor
        [JVal.str "6Fe3qqFZ0DDwsM86zBlHJtlJ", JVal.obj ⟨[("notes", "done")]⟩]).hasBody = true) ∧
    ((resolve apiV2 tasksPostDescriptor [JVal.obj ⟨[("name", "Onfleet Team")]⟩]).body =
        Body.val (JVal.obj ⟨[("name", "Onfleet Team")]⟩) ∧
      (resolve apiV2 tasksPostDescriptor [JVal.obj ⟨[("name", "Onfleet Team")]⟩]).hasBody = true) := by
  have h1 := resolve_post apiV2 tasksPostDescriptor
    (JVal.str "6Fe3qqFZ0DDwsM86zBlHJtlJ") [JVal.obj ⟨[("notes", "done")]⟩] rfl rfl
  have h2 := resolve_post apiV2 tasksPostDescriptor
    (JVal.obj ⟨[("name", "Onfleet Team")]⟩) [] rfl rfl
  exact ⟨(h1.1 (by decide)).2.1 (JVal.obj ⟨[("notes", "done")]⟩) rfl rfl,
    h2.2 (by decide)⟩

/-- C10: constructing a client with a falsy API key raises a
ValidationError; with a user-supplied timeout above 70000 ms raises a
ValidationError; and when both checks pass it succeeds and installs the
default Content-Type, User-Agent and Basic Authorization headers. -/
theorem onfleet_constructor_validation (pkgName pkgVersion : String)
    (lim : LimiterSettings) (opts : ConstructorOptions) :
    (jsTruthyOptS opts.apiKey = false →
      OnfleetConstructor pkgName pkgVersion lim opts =
        .error ⟨"Onfleet API key not found, please obtain an API key from your organization admin"⟩) ∧
    (∀ t, opts.userTimeout = some t → 70000 < t → jsTruthyOptS opts.apiKey = true →
      OnfleetConstructor pkgName pkgVersion lim opts =
        .error ⟨"User-defined timeout has to be shorter than 70000ms"⟩) ∧
    (∀ key, opts.apiKey = some key → key ≠ "" → opts.userTimeout.getD 70000 ≤ 70000 →
      headersOf (OnfleetConstructor pkgName pkgVersion lim opts) =
        some [("Content-Type", "application/json"),
          ("User-Agent", pkgName ++ "-" ++ pkgVersion),
          ("Authorization", "Basic " ++ encode key)]) := by
  refine ⟨?_, ?_, ?_⟩
  · intro h
    unfold OnfleetConstructor
    rw [if_pos (by simp [h])]
  · intro t ht hgt hkey
    unfold OnfleetConstructor
    rw [if_neg (by simp [hkey]), if_pos (by simp [ht, DEFAULT_TIMEOUT, hgt])]
  · intro key hkey hne hle
    unfold OnfleetConstructor
    rw [if_neg (by simp [hkey, jsTruthyOptS, hne]),
      if_neg (by simp [DEFAULT_TIMEOUT]; omega)]
    simp [headersOf, hkey]

/-- C10, witness: the three cases at concrete options — no key, a
timeout of 80000 ms, and a valid construction showing the installed
headers. -/
theorem onfleet_constructor_validation_witness :
    OnfleetConstructor "trellus-node-onfleet" "1.0.0" ⟨1, 50⟩
        ⟨none, none, none, none, none, none⟩ =
      .error ⟨"Onfleet API key not found, please obtain an API key from your organization admin"⟩ ∧
    OnfleetConstructor "trellus-node-onfleet" "1.0.0" ⟨1, 50⟩
        ⟨some "123", some 80000, none, none, none, none⟩ =
      .error ⟨"User-defined timeout has to be shorter than 70000ms"⟩ ∧
    headersOf (OnfleetConstructor "trellus-node-onfleet" "1.0.0" ⟨1, 50⟩
        ⟨some "123", some 5000, none, none, none, none⟩) =
      some [("Content-Type", "application/json"),
        ("User-Agent", "trellus-node-onfleet" ++ "-" ++ "1.0.0"),
        ("Authorization", "Basic " ++ encode "123")] := by
  have h1 := onfleet_constructor_validation "trellus-node-onfleet" "1.0.0" ⟨1, 50⟩
    ⟨none, none, none, none, none, none⟩
  have h2 := onfleet_constructor_validation "trellus-node-onfleet" "1.0.0" ⟨1, 50⟩
    ⟨some "123", some 80000, none, none, none, none⟩
  have h3 := onfleet_constructor_validation "trellus-node-onfleet" "1.0.0" ⟨1, 50⟩
    ⟨some "123", some 5000, none, none, none, none⟩
  exact ⟨h1.1 rfl, h2.2.1 80000 rfl (by decide) (by decide),
    h3.2.2 "123" rfl (by decide) (by decide)⟩

end TrellusOnfleet
